import Mathlib

/-!
Shallow embedding of the vidzly-backend Reddit proxy handlers.

The main model follows the route GET /api/redditProxy/:subredditName in
src/server.js (lines 225-303): mode selection from the session credential
(simple-oauth2 expiry check with a 60-second window, one best-effort refresh),
public-mode cache lookup in Vercel KV, upstream fetch, response
normalization, and the public-mode cache write with a 300-second TTL.
The limit-defaulting logic of src/index.js (parseInt with fallback 25) is
modelled separately.

Per-request I/O (token refresh outcome, cache get/set outcomes, upstream
fetch outcome) is supplied by an environment record, and the handler returns
the HTTP result together with an effect trace (refresh calls, cache reads,
upstream fetches with their URL and auth flag, cache writes with key, value
and TTL) and the final session state.
-/

namespace Vidzly

/-- A stored OAuth token object, as kept in req.session.reddit_token.
The field expires_at is a millisecond epoch timestamp, matching
simple-oauth2 which compares expires_at against Date.now(). -/
structure TokenObj where
  access_token : String
  refresh_token : String
  expires_at : Int
deriving DecidableEq

/-- simple-oauth2 accessToken.expired(window): the token counts as expired
when expires_at minus now is at most window seconds (in milliseconds). -/
def tokenExpired (t : TokenObj) (now : Int) (window : Int) : Bool :=
  t.expires_at - now ≤ window * 1000

/-- JSON values, the shape of parsed upstream bodies and cached payloads. -/
inductive Js where
  | null : Js
  | bool : Bool → Js
  | num : Int → Js
  | str : String → Js
  | arr : List Js → Js
  | obj : List (String × Js) → Js

/-- JavaScript truthiness of a JSON value (redditData && ...). -/
def truthy : Js → Bool
  | .null => false
  | .bool b => b
  | .num n => n != 0
  | .str s => s != ""
  | .arr _ => true
  | .obj _ => true

/-- Length of Object.keys applied to a JSON value: own enumerable keys of an
object, indices of an array or a string, and none for primitives. -/
def objectKeysCount : Js → Nat
  | .null => 0
  | .bool _ => 0
  | .num _ => 0
  | .str s => s.length
  | .arr xs => xs.length
  | .obj kvs => kvs.length

/-- Field lookup in a JSON object. -/
def jsGet (j : Js) (k : String) : Option Js :=
  match j with
  | .obj kvs => kvs.lookup k
  | _ => none

/-- The express session visible to the proxy route: the optional stored
reddit_token plus all the other session fields, carried abstractly so that
frame conditions about them are meaningful. -/
structure Session where
  reddit_token : Option TokenObj
  others : List (String × String)
deriving DecidableEq

/-- Outcome of the upstream fetch once a response arrived: its HTTP status,
its body read as text, and the outcome of parsing the body as JSON. -/
structure Fetched where
  status : Nat
  bodyText : String
  bodyJson : Except String Js

/-- Per-request environment: the clock and the outcomes the external
collaborators would produce if called during this request. -/
structure Env where
  now : Int
  kvConfigured : Bool
  refreshResult : Except String TokenObj
  cacheGetResult : Except String (Option Js)
  fetchResult : Except String Fetched
  cacheSetResult : Except String Unit

/-- Request parameters: the subreddit path segment and the raw limit and
after query parameters (none when absent). -/
structure ProxyReq where
  subredditName : String
  limitQ : Option String
  afterQ : Option String

/-- One upstream fetch as recorded in the trace: the URL and whether an
Authorization header was attached. -/
structure FetchRec where
  url : String
  hasAuth : Bool
deriving DecidableEq

/-- One cache write as recorded in the trace. -/
structure CacheSetRec where
  key : String
  value : Js
  ttl : Nat

/-- Effect trace of one handled request. -/
structure Trace where
  refreshCalls : Nat
  cacheGets : Nat
  fetches : List FetchRec
  cacheSets : List CacheSetRec

/-- Result of one handled request: HTTP status, JSON body, the session as
left behind by the handler, and the effect trace. -/
structure HResult where
  status : Nat
  body : Js
  session : Session
  trace : Trace

/-- const CACHE_TTL_SECONDS = 5 * 60 in src/server.js. -/
def CACHE_TTL_SECONDS : Nat := 5 * 60

/-- Effective limit string: const \x7b limit = 25 \x7d = req.query, so the
raw query value when present and the string form of 25 when absent. -/
def limParam (q : Option String) : String := q.getD "25"

/-- Effective after string: const \x7b after = a \x7d = req.query with
default empty string. -/
def afterParam (q : Option String) : String := q.getD ""

/-- The after template fragment: the empty string when after is falsy,
otherwise the appended query parameter. -/
def afterQuery (aft : String) : String :=
  if aft = "" then "" else "&after=" ++ aft

/-- Common tail of the two upstream URLs built by the proxy route. -/
def urlTail (sub lim aft : String) : String :=
  "/r/" ++ sub ++ "/top.json?raw_json=1&t=all&limit=" ++ lim ++ afterQuery aft

/-- Authenticated-mode upstream URL (oauth host). -/
def oauthFetchUrl (sub lim aft : String) : String :=
  "https://oauth.reddit.com" ++ urlTail sub lim aft

/-- Public-mode upstream URL (www host). -/
def publicFetchUrl (sub lim aft : String) : String :=
  "https://www.reddit.com" ++ urlTail sub lim aft

/-- The cache key built at line 260 of src/server.js. -/
def cacheKey (sub lim aft : String) : String :=
  "reddit:" ++ sub ++ ":limit" ++ lim ++ ":after" ++ aft

/-- Error response body res.status(...).json with error and details. -/
def errorBody (e d : String) : Js :=
  .obj [("error", .str e), ("details", .str d)]

/-- JavaScript substring(0, n): the first n characters of a string, the
whole string when shorter. -/
def substrTo (n : Nat) (s : String) : String := ⟨s.data.take n⟩

/-- node-fetch response.ok: status in the 2xx success range. -/
def statusOk (n : Nat) : Bool := 200 ≤ n && n < 300

/-- Outcome of the mode-selection phase of the proxy route (src/server.js
lines 233-252): the possibly updated session, the token used for the
Authorization header when authenticated mode was selected, and how many
refresh calls were made. -/
structure AuthPlan where
  sess : Session
  authTok : Option TokenObj
  refreshCalls : Nat

/-- Mode selection of src/server.js lines 233-252. With a session token
present: if expired within the 60-second window, one refresh is attempted,
storing the new token in the session on success and leaving everything
unchanged on failure; authenticated mode is then selected exactly when the
session still holds a token and the working token is not fully expired
(expired with window 0). -/
def authPlan (env : Env) (sess : Session) : AuthPlan :=
  match sess.reddit_token with
  | none => { sess := sess, authTok := none, refreshCalls := 0 }
  | some tok =>
    let step : Session × TokenObj × Nat :=
      if tokenExpired tok env.now 60 then
        match env.refreshResult with
        | .ok newTok => ({ sess with reddit_token := some newTok }, newTok, 1)
        | .error _ => (sess, tok, 1)
      else (sess, tok, 0)
    if step.1.reddit_token.isSome && !(tokenExpired step.2.1 env.now 0) then
      { sess := step.1, authTok := some step.2.1, refreshCalls := step.2.2 }
    else
      { sess := step.1, authTok := none, refreshCalls := step.2.2 }

/-- Cache lookup outcome as observed by the handler: a stored value only
when the request is public, the KV client is configured and the get call
returned a value; a get failure is indistinguishable from a miss. -/
def cacheHit (env : Env) (sess : Session) : Option Js :=
  if (authPlan env sess).authTok.isNone && env.kvConfigured then
    match env.cacheGetResult with
    | .ok (some v) => some v
    | _ => none
  else none

/-- The proxy route GET /api/redditProxy/:subredditName of src/server.js
lines 225-303: mode selection, public-mode cache lookup, upstream fetch,
response normalization, public-mode cache write. -/
def redditProxy (env : Env) (req : ProxyReq) (sess : Session) : HResult :=
  let sub := req.subredditName
  let lim := limParam req.limitQ
  let aft := afterParam req.afterQ
  let plan := authPlan env sess
  let useServerCache := plan.authTok.isNone
  let fetchRec : FetchRec :=
    match plan.authTok with
    | some _ => { url := oauthFetchUrl sub lim aft, hasAuth := true }
    | none => { url := publicFetchUrl sub lim aft, hasAuth := false }
  let key := cacheKey sub lim aft
  let gets : Nat := if useServerCache && env.kvConfigured then 1 else 0
  match cacheHit env sess with
  | some v =>
    { status := 200, body := v, session := plan.sess,
      trace := { refreshCalls := plan.refreshCalls, cacheGets := gets,
                 fetches := [], cacheSets := [] } }
  | none =>
    match env.fetchResult with
    | .error e =>
      { status := 500, body := errorBody "Failed to proxy request to Reddit" e,
        session := plan.sess,
        trace := { refreshCalls := plan.refreshCalls, cacheGets := gets,
                   fetches := [fetchRec], cacheSets := [] } }
    | .ok f =>
      if statusOk f.status then
        match f.bodyJson with
        | .error e =>
          { status := 500,
            body := errorBody "Failed to proxy request to Reddit" e,
            session := plan.sess,
            trace := { refreshCalls := plan.refreshCalls, cacheGets := gets,
                       fetches := [fetchRec], cacheSets := [] } }
        | .ok d =>
          let doSet := useServerCache && env.kvConfigured && truthy d
            && decide (0 < objectKeysCount d)
          { status := 200, body := d, session := plan.sess,
            trace := { refreshCalls := plan.refreshCalls, cacheGets := gets,
                       fetches := [fetchRec],
                       cacheSets := if doSet then
                         [{ key := key, value := d, ttl := CACHE_TTL_SECONDS }]
                         else [] } }
      else
        { status := f.status,
          body := errorBody ("Failed to fetch from Reddit: " ++ toString f.status)
            (substrTo 1000 f.bodyText),
          session := plan.sess,
          trace := { refreshCalls := plan.refreshCalls, cacheGets := gets,
                     fetches := [fetchRec], cacheSets := [] } }

/-- Leading decimal digits of a character list. -/
def takeDigits : List Char → List Char
  | [] => []
  | c :: cs => if c.isDigit then c :: takeDigits cs else []

/-- Numeric value of a digit list. -/
def digitsVal (ds : List Char) : Nat :=
  ds.foldl (fun a c => a * 10 + (c.toNat - 48)) 0

/-- JavaScript parseInt(s, 10): skip leading whitespace, read an optional
sign, then the longest prefix of decimal digits; NaN (none) when there is
no digit. -/
def parseIntJs (s : String) : Option Int :=
  let t := s.data.dropWhile Char.isWhitespace
  let signed : Int × List Char :=
    match t with
    | '-' :: cs => (-1, cs)
    | '+' :: cs => (1, cs)
    | cs => (1, cs)
  let ds := takeDigits signed.2
  if ds.isEmpty then none
  else some (signed.1 * (digitsVal ds : Int))

/-- Effective limit of the route GET /api/reddit/:subredditName of
src/index.js lines 19-22: parseInt(limit, 10), replaced by 25 when NaN or
not positive (parseInt of an absent parameter is NaN). -/
def indexEffLimit (q : Option String) : Int :=
  match q with
  | none => 25
  | some s =>
    match parseIntJs s with
    | none => 25
    | some n => if n ≤ 0 then 25 else n

/-! Concrete fixtures used by counterexamples and witnesses. -/

/-- A fetch outcome with a successful status and a one-key JSON object. -/
def okFetch : Fetched :=
  { status := 200, bodyText := "ignored",
    bodyJson := .ok (.obj [("data", .str "posts")]) }

/-- A fully public environment: no KV client, the fetch succeeds. -/
def envPub : Env :=
  { now := 1000000, kvConfigured := false, refreshResult := .error "unused",
    cacheGetResult := .ok none, fetchResult := .ok okFetch,
    cacheSetResult := .ok () }

/-- A session with no stored credential. -/
def sessAnon : Session := { reddit_token := none, others := [] }

/-- A request for r/pics with both query parameters absent. -/
def reqPics : ProxyReq :=
  { subredditName := "pics", limitQ := none, afterQ := none }

/-- A cached payload stored under the public cache key. -/
def cachedVal : Js := .obj [("cached", .bool true)]

/-- Environment whose cache lookup returns a stored value. -/
def envHit : Env :=
  { now := 1000000, kvConfigured := true, refreshResult := .error "unused",
    cacheGetResult := .ok (some cachedVal), fetchResult := .ok okFetch,
    cacheSetResult := .ok () }

/-- Environment with a configured KV client, a cache miss and a successful
upstream fetch, so that a cache write happens on a public request. -/
def envWrite : Env :=
  { now := 1000000, kvConfigured := true, refreshResult := .error "unused",
    cacheGetResult := .ok none, fetchResult := .ok okFetch,
    cacheSetResult := .ok () }

/-- The cache write produced by envWrite on a public request for r/pics. -/
def writeRec : CacheSetRec :=
  { key := cacheKey "pics" "25" "", value := .obj [("data", .str "posts")],
    ttl := 300 }

/-- Environment whose upstream returns status 429 with body rate limited. -/
def env429 : Env :=
  { now := 1000000, kvConfigured := false, refreshResult := .error "unused",
    cacheGetResult := .ok none,
    fetchResult := .ok { status := 429, bodyText := "rate limited",
                         bodyJson := .error "not json" },
    cacheSetResult := .ok () }

/-- Environment whose upstream fetch fails at the network level. -/
def envNetFail : Env :=
  { now := 1000000, kvConfigured := false, refreshResult := .error "unused",
    cacheGetResult := .ok none, fetchResult := .error "socket hang up",
    cacheSetResult := .ok () }

/-- Environment whose upstream returns a 2xx status with a body that is not
valid JSON. -/
def envBadJson : Env :=
  { now := 1000000, kvConfigured := false, refreshResult := .error "unused",
    cacheGetResult := .ok none,
    fetchResult := .ok { status := 200, bodyText := "<html>oops</html>",
                         bodyJson := .error "Unexpected token" },
    cacheSetResult := .ok () }

/-- Environment in which a token refresh, if attempted, fails. -/
def envRefreshFail : Env :=
  { now := 1000000, kvConfigured := true, refreshResult := .error "invalid_grant",
    cacheGetResult := .ok none, fetchResult := .ok okFetch,
    cacheSetResult := .ok () }

/-- A token that expires 30 seconds from now 1000000: inside the 60-second
refresh window but not yet fully expired. -/
def tokSoon : TokenObj :=
  { access_token := "at1", refresh_token := "rt1", expires_at := 1030000 }

/-- Session holding tokSoon plus an unrelated field. -/
def sessSoon : Session :=
  { reddit_token := some tokSoon, others := [("sid", "s1")] }

/-- A token that fully expired 100 seconds before now 1000000. -/
def tokOld : TokenObj :=
  { access_token := "at0", refresh_token := "rt0", expires_at := 900000 }

/-- Session holding tokOld plus an unrelated field. -/
def sessOld : Session :=
  { reddit_token := some tokOld, others := [("sid", "x")] }

/-- A token valid far beyond the refresh window at now 1000000. -/
def tokValid : TokenObj :=
  { access_token := "atv", refresh_token := "rtv", expires_at := 2000000000 }

/-- Session holding tokValid. -/
def sessValid : Session :=
  { reddit_token := some tokValid, others := [] }

/-- Second refresh-failure fixture, at a different clock. -/
def envRefreshFail2 : Env :=
  { now := 2000000, kvConfigured := true, refreshResult := .error "server_error",
    cacheGetResult := .ok none, fetchResult := .ok okFetch,
    cacheSetResult := .ok () }

/-- A token that expires 45 seconds after now 2000000. -/
def tokSoon2 : TokenObj :=
  { access_token := "at2", refresh_token := "rt2", expires_at := 2045000 }

/-- Session holding tokSoon2 plus an unrelated field. -/
def sessSoon2 : Session :=
  { reddit_token := some tokSoon2, others := [("theme", "dark")] }

/-- A token that fully expired before now 2000000. -/
def tokOld2 : TokenObj :=
  { access_token := "at3", refresh_token := "rt3", expires_at := 1500000 }

/-- Session holding tokOld2 plus an unrelated field. -/
def sessOld2 : Session :=
  { reddit_token := some tokOld2, others := [("lang", "en")] }

/-! Theorems for the frozen claims. -/

/-- Claim C6: the cache key is a pure, deterministic function of the
(subreddit, limit, after) triple, given by an explicit formula; an empty
after value yields the same cache key, the same upstream URL (no after
query parameter appended) and, in fact, an identical handler run as an
absent after value. -/
theorem c6_cache_key_deterministic_empty_after :
    (∀ s l a, cacheKey s l a = "reddit:" ++ s ++ ":limit" ++ l ++ ":after" ++ a) ∧
    afterParam (some "") = afterParam none ∧
    afterQuery "" = "" ∧
    (∀ s l, cacheKey s l (afterParam (some "")) = cacheKey s l (afterParam none)) ∧
    (∀ s l, publicFetchUrl s l (afterParam (some "")) = publicFetchUrl s l (afterParam none)) ∧
    (∀ env sess sub lq,
      redditProxy env { subredditName := sub, limitQ := lq, afterQ := some "" } sess
        = redditProxy env { subredditName := sub, limitQ := lq, afterQ := none } sess) :=
  ⟨fun _ _ _ => rfl, rfl, rfl, fun _ _ => rfl, fun _ _ => rfl,
   fun _ _ _ _ => rfl⟩

/-- Claim C9 counterexample: in src/server.js the limit query value is
interpolated into the upstream URL without validation, so with limit "0"
the upstream URL carries limit=0, whose numeric value 0 is not a positive
integer, and the effective limit is not 25 either. -/
theorem c9_counterexample :
    (redditProxy envPub
        { subredditName := "pics", limitQ := some "0", afterQ := none }
        sessAnon).trace.fetches
      = [{ url := "https://www.reddit.com/r/pics/top.json?raw_json=1&t=all&limit=0",
           hasAuth := false }] ∧
    limParam (some "0") = "0" ∧
    parseIntJs (limParam (some "0")) = some 0 ∧
    limParam (some "0") ≠ "25" := by
  refine ⟨rfl, rfl, rfl, by decide⟩

/-- Claim C9 amended: in src/index.js the effective limit is always a
positive integer, equal to parseInt(limit, 10) when that is positive and to
25 when the parameter is absent, unparsable, or parses to a non-positive
value; in src/server.js the raw limit query value is used unvalidated, with
the string 25 only when the parameter is absent. -/
theorem c9_effective_limit :
    (∀ q, 0 < indexEffLimit q) ∧
    indexEffLimit none = 25 ∧
    (∀ s, parseIntJs s = none → indexEffLimit (some s) = 25) ∧
    (∀ s n, parseIntJs s = some n → n ≤ 0 → indexEffLimit (some s) = 25) ∧
    (∀ s n, parseIntJs s = some n → 0 < n → indexEffLimit (some s) = n) ∧
    limParam none = "25" ∧
    (∀ s, limParam (some s) = s) := by
  refine ⟨?_, rfl, ?_, ?_, ?_, rfl, fun _ => rfl⟩
  · intro q
    cases q with
    | none => simp [indexEffLimit]
    | some s =>
      simp only [indexEffLimit]
      cases parseIntJs s with
      | none => simp
      | some n =>
        simp only
        split <;> omega
  · intro s h
    simp [indexEffLimit, h]
  · intro s n h hle
    simp [indexEffLimit, h, hle]
  · intro s n h hpos
    simp [indexEffLimit, h]
    omega

/-- Claim C9 witness: the amended theorem applied at concrete inputs, with
parseIntJs evaluated there. -/
theorem c9_witness :
    indexEffLimit (some "abc") = 25 ∧ indexEffLimit (some "0") = 25 ∧
    indexEffLimit (some "10") = 10 :=
  ⟨c9_effective_limit.2.2.1 "abc" (by rfl),
   c9_effective_limit.2.2.2.1 "0" 0 (by rfl) (by omega),
   c9_effective_limit.2.2.2.2.1 "10" 10 (by rfl) (by omega)⟩

/-- Claim C2: a public-mode request whose cache lookup returns a stored
value is answered with that payload verbatim and status 200, and no
upstream fetch is performed. -/
theorem c2_cache_hit_serves_cached (env : Env) (req : ProxyReq) (sess : Session)
    (v : Js) (h : cacheHit env sess = some v) :
    (redditProxy env req sess).status = 200 ∧
    (redditProxy env req sess).body = v ∧
    (redditProxy env req sess).trace.fetches = [] := by
  simp [redditProxy, h]

/-- Claim C2 witness: the theorem applied to a concrete request with a
stored cache value. -/
theorem c2_witness :
    (redditProxy envHit reqPics sessAnon).status = 200 ∧
    (redditProxy envHit reqPics sessAnon).body = cachedVal ∧
    (redditProxy envHit reqPics sessAnon).trace.fetches = [] :=
  c2_cache_hit_serves_cached envHit reqPics sessAnon cachedVal (by rfl)

/-- Claim C4 counterexample: for upstream status 429 with body rate limited
the handler answers with status 429 and error field Failed to fetch from
Reddit: 429, which differs from the Failed to fetch: 429 wording the claim
states. -/
theorem c4_counterexample :
    (redditProxy env429 reqPics sessAnon).status = 429 ∧
    jsGet (redditProxy env429 reqPics sessAnon).body "error"
      = some (.str "Failed to fetch from Reddit: 429") ∧
    jsGet (redditProxy env429 reqPics sessAnon).body "details"
      = some (.str "rate limited") ∧
    "Failed to fetch from Reddit: 429" ≠ "Failed to fetch: 429" :=
  ⟨rfl, rfl, rfl, by decide⟩

/-- Claim C4 amended: a non-2xx upstream response is passed through with
the same status code and the body with error Failed to fetch from Reddit:
status and details the upstream body text truncated to at most 1000
characters (the claim had stated the error wording Failed to fetch:
status). -/
theorem c4_upstream_error_passthrough (env : Env) (req : ProxyReq)
    (sess : Session) (f : Fetched)
    (hmiss : cacheHit env sess = none)
    (hf : env.fetchResult = .ok f)
    (hst : statusOk f.status = false) :
    (redditProxy env req sess).status = f.status ∧
    (redditProxy env req sess).body
      = errorBody ("Failed to fetch from Reddit: " ++ toString f.status)
          (substrTo 1000 f.bodyText) ∧
    (substrTo 1000 f.bodyText).length ≤ 1000 := by
  refine ⟨?_, ?_, ?_⟩
  · simp [redditProxy, hmiss, hf, hst]
  · simp [redditProxy, hmiss, hf, hst]
  · exact List.length_take_le 1000 f.bodyText.data

/-- Claim C4 witness: the amended theorem applied to the 429 fixture. -/
theorem c4_witness :
    (redditProxy env429 reqPics sessAnon).status = 429 ∧
    (redditProxy env429 reqPics sessAnon).body
      = errorBody ("Failed to fetch from Reddit: " ++ toString 429)
          (substrTo 1000 "rate limited") ∧
    (substrTo 1000 "rate limited").length ≤ 1000 :=
  c4_upstream_error_passthrough env429 reqPics sessAnon
    { status := 429, bodyText := "rate limited", bodyJson := .error "not json" }
    (by rfl) (by rfl) (by rfl)

/-- Claim C8: when the upstream fetch fails at the network level, or when a
success response carries a body that is not valid JSON, the handler answers
HTTP 500 with the generic message Failed to proxy request to Reddit and the
underlying error text, never a successful empty response. -/
theorem c8_transport_error_500 (env : Env) (req : ProxyReq) (sess : Session)
    (hmiss : cacheHit env sess = none) :
    (∀ e, env.fetchResult = .error e →
      (redditProxy env req sess).status = 500 ∧
      (redditProxy env req sess).body
        = errorBody "Failed to proxy request to Reddit" e) ∧
    (∀ f e, env.fetchResult = .ok f → statusOk f.status = true →
      f.bodyJson = .error e →
      (redditProxy env req sess).status = 500 ∧
      (redditProxy env req sess).body
        = errorBody "Failed to proxy request to Reddit" e) := by
  constructor
  · intro e he
    constructor <;> simp [redditProxy, hmiss, he]
  · intro f e hf hst hj
    constructor <;> simp [redditProxy, hmiss, hf, hst, hj]

/-- Claim C8 witness: the theorem applied to a network failure and to a
non-JSON success body. -/
theorem c8_witness :
    (redditProxy envNetFail reqPics sessAnon).status = 500 ∧
    (redditProxy envBadJson reqPics sessAnon).status = 500 :=
  ⟨((c8_transport_error_500 envNetFail reqPics sessAnon (by rfl)).1
      "socket hang up" (by rfl)).1,
   ((c8_transport_error_500 envBadJson reqPics sessAnon (by rfl)).2
      { status := 200, bodyText := "<html>oops</html>",
        bodyJson := .error "Unexpected token" }
      "Unexpected token" (by rfl) (by rfl) (by rfl)).1⟩

/-- Claim C7: cache failures never change the outcome of a request: a run
whose cache read fails is identical to the same run with a cache miss (the
upstream fetch proceeds), and the run does not depend on the cache write
outcome at all, so a write failure is swallowed and never surfaced. -/
theorem c7_cache_failures_harmless (env : Env) (req : ProxyReq) (sess : Session)
    (e : String) (x y : Except String Unit) :
    redditProxy { env with cacheGetResult := .error e } req sess
      = redditProxy { env with cacheGetResult := .ok none } req sess ∧
    redditProxy { env with cacheSetResult := x } req sess
      = redditProxy { env with cacheSetResult := y } req sess := by
  constructor <;> rfl

/-- Structural facts about every run: the handler leaves behind exactly the
session produced by mode selection, reports its refresh count, and every
upstream fetch carries an Authorization header exactly in authenticated
mode. -/
theorem redditProxy_plan_facts (env : Env) (req : ProxyReq) (sess : Session) :
    (redditProxy env req sess).session = (authPlan env sess).sess ∧
    (redditProxy env req sess).trace.refreshCalls = (authPlan env sess).refreshCalls ∧
    (∀ fr ∈ (redditProxy env req sess).trace.fetches,
      fr.hasAuth = (authPlan env sess).authTok.isSome) := by
  simp only [redditProxy]
  cases hA : (authPlan env sess).authTok <;>
    cases hHit : cacheHit env sess <;>
      cases hF : env.fetchResult <;>
        simp only [hA, hHit, hF] <;>
          (try split) <;>
            (try split) <;>
              simp

/-- Claim C5: a request served in authenticated mode neither reads from nor
writes to the cache. -/
theorem c5_authenticated_no_cache_io (env : Env) (req : ProxyReq) (sess : Session)
    (h : (authPlan env sess).authTok.isSome = true) :
    (redditProxy env req sess).trace.cacheGets = 0 ∧
    (redditProxy env req sess).trace.cacheSets = [] := by
  have hn : (authPlan env sess).authTok.isNone = false := by
    cases hA : (authPlan env sess).authTok with
    | none => rw [hA] at h; simp at h
    | some t => simp
  have hHit : cacheHit env sess = none := by
    simp [cacheHit, hn]
  simp only [redditProxy, hHit, hn]
  cases hF : env.fetchResult <;>
    simp only [hF] <;>
      (try split) <;>
        (try split) <;>
          simp_all

/-- Claim C5 witness: the theorem applied to a session holding a credential
valid far beyond the refresh window. -/
theorem c5_witness :
    (redditProxy envRefreshFail reqPics sessValid).trace.cacheGets = 0 ∧
    (redditProxy envRefreshFail reqPics sessValid).trace.cacheSets = [] :=
  c5_authenticated_no_cache_io envRefreshFail reqPics sessValid (by decide)

/-- Mode selection under a failed refresh: with a stored token inside the
60-second expiry window and a failing refresh, exactly one refresh is
attempted, the session is left unchanged, and authenticated mode is kept
with the stale token unless the token is fully expired. -/
theorem authPlan_refresh_failure (env : Env) (sess : Session) (tok : TokenObj)
    (e : String)
    (h1 : sess.reddit_token = some tok)
    (h2 : tokenExpired tok env.now 60 = true)
    (h3 : env.refreshResult = .error e) :
    authPlan env sess =
      if tokenExpired tok env.now 0 then
        { sess := sess, authTok := none, refreshCalls := 1 }
      else
        { sess := sess, authTok := some tok, refreshCalls := 1 } := by
  unfold authPlan
  rw [h1]
  cases hE : tokenExpired tok env.now 0 <;>
    simp [h2, h3, h1, hE]

/-- In public mode the response (status and body) is the one a session with
no stored credential would get: it is driven by the cache and upstream
outcomes only. -/
theorem redditProxy_public_response (env : Env) (req : ProxyReq) (sess : Session)
    (h : (authPlan env sess).authTok = none) :
    (redditProxy env req sess).status
      = (redditProxy env req { sess with reddit_token := none }).status ∧
    (redditProxy env req sess).body
      = (redditProxy env req { sess with reddit_token := none }).body := by
  have hP2 : authPlan env { sess with reddit_token := none }
      = { sess := { sess with reddit_token := none }, authTok := none,
          refreshCalls := 0 } := rfl
  have hHitEq : cacheHit env sess
      = cacheHit env { sess with reddit_token := none } := by
    simp [cacheHit, h, hP2]
  simp only [redditProxy, h, hHitEq]
  cases hHit : cacheHit env { sess with reddit_token := none } <;>
    cases hF : env.fetchResult <;>
      simp only [hHit, hF] <;>
        (try split) <;>
          (try split) <;>
            simp_all [authPlan]

/-- Claim C1 counterexample: with a credential expiring in 30 seconds
(inside the 60-second window) and a failing refresh, the handler attempts
the one refresh but then serves the request in authenticated mode with the
stale token (oauth host, Authorization header), not in public mode as the
claim states. -/
theorem c1_counterexample :
    tokenExpired tokSoon envRefreshFail.now 60 = true ∧
    envRefreshFail.refreshResult = .error "invalid_grant" ∧
    (redditProxy envRefreshFail reqPics sessSoon).trace.refreshCalls = 1 ∧
    (redditProxy envRefreshFail reqPics sessSoon).trace.fetches
      = [{ url := oauthFetchUrl "pics" "25" "", hasAuth := true }] :=
  ⟨by decide, rfl, rfl, rfl⟩

/-- Claim C1 amended: on an expired credential (60-second window) whose
refresh fails, the handler attempts exactly one refresh, leaves the session
unchanged, and still serves the request: in public mode, answering exactly
as for a credential-less session, when the stale token is fully expired,
but in authenticated mode with the stale token when the token is only
within the window. -/
theorem c1_refresh_failure_degrades (env : Env) (req : ProxyReq) (sess : Session)
    (tok : TokenObj) (e : String)
    (h1 : sess.reddit_token = some tok)
    (h2 : tokenExpired tok env.now 60 = true)
    (h3 : env.refreshResult = .error e) :
    (redditProxy env req sess).trace.refreshCalls = 1 ∧
    (redditProxy env req sess).session = sess ∧
    (tokenExpired tok env.now 0 = true →
      (redditProxy env req sess).status
        = (redditProxy env req { sess with reddit_token := none }).status ∧
      (redditProxy env req sess).body
        = (redditProxy env req { sess with reddit_token := none }).body ∧
      ∀ fr ∈ (redditProxy env req sess).trace.fetches, fr.hasAuth = false) ∧
    (tokenExpired tok env.now 0 = false →
      ∀ fr ∈ (redditProxy env req sess).trace.fetches, fr.hasAuth = true) := by
  have hP := authPlan_refresh_failure env sess tok e h1 h2 h3
  obtain ⟨hsess, hrc, hfa⟩ := redditProxy_plan_facts env req sess
  cases hE : tokenExpired tok env.now 0 with
  | true =>
    rw [hE, if_pos rfl] at hP
    refine ⟨by rw [hrc, hP], by rw [hsess, hP], fun _ => ?_,
      fun hc => Bool.noConfusion hc⟩
    have hpub := redditProxy_public_response env req sess (by rw [hP])
    exact ⟨hpub.1, hpub.2, fun fr hfr => by rw [hfa fr hfr, hP]; rfl⟩
  | false =>
    rw [hE] at hP
    simp only [Bool.false_eq_true, if_false] at hP
    exact ⟨by rw [hrc, hP], by rw [hsess, hP],
      fun hc => Bool.noConfusion hc,
      fun _ fr hfr => by rw [hfa fr hfr, hP]; rfl⟩

/-- Claim C1 witness: the amended theorem applied to a fully expired token
with a failing refresh; the handler answers as it would for an anonymous
session. -/
theorem c1_witness :
    (redditProxy envRefreshFail reqPics sessOld).trace.refreshCalls = 1 ∧
    (redditProxy envRefreshFail reqPics sessOld).session = sessOld ∧
    (redditProxy envRefreshFail reqPics sessOld).status
      = (redditProxy envRefreshFail reqPics
          { sessOld with reddit_token := none }).status := by
  have h := c1_refresh_failure_degrades envRefreshFail reqPics sessOld tokOld
    "invalid_grant" (by rfl) (by decide) (by rfl)
  exact ⟨h.1, h.2.1, (h.2.2.1 (by decide)).1⟩

/-- Claim C10 counterexample: after a failed refresh of a token inside the
60-second window the session is indeed left unchanged, but the request
proceeds in authenticated mode with the stale token, not in public mode as
the claim states. -/
theorem c10_counterexample :
    tokenExpired tokSoon2 envRefreshFail2.now 60 = true ∧
    envRefreshFail2.refreshResult = .error "server_error" ∧
    (redditProxy envRefreshFail2 reqPics sessSoon2).session = sessSoon2 ∧
    (redditProxy envRefreshFail2 reqPics sessSoon2).trace.fetches
      = [{ url := oauthFetchUrl "pics" "25" "", hasAuth := true }] :=
  ⟨by decide, rfl, rfl, rfl⟩

/-- Claim C10 amended: in the src/server.js proxy route a failed token
refresh leaves the whole session unchanged (the stale reddit_token field is
retained, no field is written, the session is not destroyed); the request
then proceeds in public mode when the stale token is fully expired, and in
authenticated mode with the stale token when it is still within the
60-second window. -/
theorem c10_refresh_failure_session_frame (env : Env) (req : ProxyReq)
    (sess : Session) (tok : TokenObj) (e : String)
    (h1 : sess.reddit_token = some tok)
    (h2 : tokenExpired tok env.now 60 = true)
    (h3 : env.refreshResult = .error e) :
    (redditProxy env req sess).session = sess ∧
    (redditProxy env req sess).session.reddit_token = some tok ∧
    (redditProxy env req sess).session.others = sess.others ∧
    (tokenExpired tok env.now 0 = true →
      ∀ fr ∈ (redditProxy env req sess).trace.fetches, fr.hasAuth = false) ∧
    (tokenExpired tok env.now 0 = false →
      ∀ fr ∈ (redditProxy env req sess).trace.fetches, fr.hasAuth = true) := by
  have hP := authPlan_refresh_failure env sess tok e h1 h2 h3
  obtain ⟨hsess, hrc, hfa⟩ := redditProxy_plan_facts env req sess
  have hsEq : (redditProxy env req sess).session = sess := by
    rw [hsess, hP]
    split <;> rfl
  refine ⟨hsEq, by rw [hsEq, h1], by rw [hsEq], ?_, ?_⟩
  · intro hE fr hfr
    rw [hfa fr hfr, hP, if_pos hE]
    rfl
  · intro hE fr hfr
    rw [hfa fr hfr, hP, hE]
    simp only [Bool.false_eq_true, if_false]
    rfl

/-- Claim C10 witness: the amended theorem applied to a fully expired token
with a failing refresh. -/
theorem c10_witness :
    (redditProxy envRefreshFail2 reqPics sessOld2).session = sessOld2 ∧
    (redditProxy envRefreshFail2 reqPics sessOld2).session.reddit_token
      = some tokOld2 := by
  have h := c10_refresh_failure_session_frame envRefreshFail2 reqPics sessOld2
    tokOld2 "server_error" (by rfl) (by decide) (by rfl)
  exact ⟨h.1, h.2.1⟩

/-- Claim C3: a cache write happens only on a public request with a
configured KV client whose upstream fetch returned a success status and a
parsed payload that is truthy with at least one key; the write uses the
same key as the lookup and the fixed 300-second TTL. -/
theorem c3_cache_write_conditions (env : Env) (req : ProxyReq) (sess : Session)
    (r : CacheSetRec)
    (h : r ∈ (redditProxy env req sess).trace.cacheSets) :
    (authPlan env sess).authTok = none ∧
    env.kvConfigured = true ∧
    (∃ f, env.fetchResult = .ok f ∧ statusOk f.status = true ∧
      f.bodyJson = .ok r.value ∧ truthy r.value = true ∧
      0 < objectKeysCount r.value) ∧
    r.key = cacheKey req.subredditName (limParam req.limitQ) (afterParam req.afterQ) ∧
    r.ttl = 300 := by
  simp only [redditProxy] at h
  cases hHit : cacheHit env sess with
  | some v => simp [hHit] at h
  | none =>
    simp only [hHit] at h
    cases hF : env.fetchResult with
    | error e => simp [hF] at h
    | ok f =>
      simp only [hF] at h
      cases hS : statusOk f.status with
      | false => simp [hS] at h
      | true =>
        simp only [hS, if_true] at h
        cases hJ : f.bodyJson with
        | error e => simp [hJ] at h
        | ok d =>
          simp only [hJ] at h
          cases hD : ((authPlan env sess).authTok.isNone && env.kvConfigured
              && truthy d && decide (0 < objectKeysCount d)) with
          | false => simp [hD] at h
          | true =>
            simp only [hD, if_true, List.mem_singleton] at h
            subst h
            simp only [Bool.and_eq_true, decide_eq_true_eq] at hD
            obtain ⟨⟨⟨hIsN, hKv⟩, hT⟩, hKeys⟩ := hD
            exact ⟨Option.isNone_iff_eq_none.mp hIsN, hKv,
              ⟨f, rfl, hS, hJ, hT, hKeys⟩, rfl, rfl⟩

/-- Claim C3 witness: the theorem applied to a concrete public request that
performs a cache write. -/
theorem c3_witness :
    (authPlan envWrite sessAnon).authTok = none ∧
    envWrite.kvConfigured = true ∧
    (∃ f, envWrite.fetchResult = .ok f ∧ statusOk f.status = true ∧
      f.bodyJson = .ok writeRec.value ∧ truthy writeRec.value = true ∧
      0 < objectKeysCount writeRec.value) ∧
    writeRec.key = cacheKey reqPics.subredditName (limParam reqPics.limitQ)
      (afterParam reqPics.afterQ) ∧
    writeRec.ttl = 300 :=
  c3_cache_write_conditions envWrite reqPics sessAnon writeRec
    (List.mem_singleton.mpr rfl)

end Vidzly
